import Mathlib

/-!
Verification of the geospatial field core of leaflet-canvaslayer-field.

The JavaScript source (`src/dist/leaflet-canvaslayer-field.js`) is embedded
shallowly: numbers become exact rationals (`ℚ`), JS `null`/`undefined` become
`Option.none`, JS out-of-bounds array reads (which yield `undefined`, not an
error) become `none`-returning lookups, and the stateful particle tick becomes
a pure state-transformer with the random draw passed in as an explicit input.
-/

namespace CanvasField

/-- Embeds the `Vector` class: a 2-component (u, v) quantity.
`magnitude()` is a square root and is only used by the animation layer when a
step is committed; the particle model below records the sampled vector itself,
which determines that magnitude. -/
structure Vector where
  u : ℚ
  v : ℚ
deriving DecidableEq

/-- Embeds the abstract `Field` class state: constructor-stored attributes,
the subclass-built `grid` (row-major, `grid[row][column]`, row 0 northmost),
the optional value filter `_inFilter`, the optional `_spatialMask`
(point-in-polygon is an external library; it is abstracted as a predicate on
(lon, lat)), and the subclass-computed `range`. -/
structure Field (α : Type) where
  nCols : ℕ
  nRows : ℕ
  xllCorner : ℚ
  yllCorner : ℚ
  cellXSize : ℚ
  cellYSize : ℚ
  grid : List (List (Option α))
  inFilter : Option (Option α → Bool)
  spatialMask : Option (ℚ → ℚ → Bool)
  range : Option ℚ × Option ℚ

variable {α : Type}

/-- `this.xurCorner = xllCorner + nCols * cellXSize` (constructor). -/
def xurCorner (F : Field α) : ℚ :=
  F.xllCorner + F.nCols * F.cellXSize

/-- `this.yurCorner = yllCorner + nRows * cellYSize` (constructor). -/
def yurCorner (F : Field α) : ℚ :=
  F.yllCorner + F.nRows * F.cellYSize

/-- `this.isContinuous = this.xurCorner - this.xllCorner >= 360`. -/
def isContinuous (F : Field α) : Bool :=
  decide ((360 : ℚ) ≤ xurCorner F - F.xllCorner)

/-- `this.longitudeNeedsToBeWrapped = this.xurCorner > 180`. -/
def longitudeNeedsToBeWrapped (F : Field α) : Bool :=
  decide ((180 : ℚ) < xurCorner F)

/-- Embeds `_getWrappedLongitudes`: `[xmin, xmax]` in the [-180, 180] range. -/
def getWrappedLongitudes (F : Field α) : ℚ × ℚ :=
  if longitudeNeedsToBeWrapped F then
    if isContinuous F then (-180, 180)
    else (F.xllCorner - 360, xurCorner F - 360)
  else (F.xllCorner, xurCorner F)

/-- Embeds `extent()`: `[xmin, ymin, xmax, ymax]`. -/
def extent (F : Field α) : ℚ × ℚ × ℚ × ℚ :=
  let wl := getWrappedLongitudes F
  (wl.1, F.yllCorner, wl.2, yurCorner F)

/-- Embeds `_pointInExtent`. -/
def pointInExtent (F : Field α) (lon lat : ℚ) : Bool :=
  let wl := getWrappedLongitudes F
  (decide (wl.1 ≤ lon) && decide (lon ≤ wl.2)) &&
    (decide (F.yllCorner ≤ lat) && decide (lat ≤ yurCorner F))

/-- Embeds `contains`: point-in-polygon when a spatial mask is set, the
(wrap-corrected) extent check otherwise. -/
def contains (F : Field α) (lon lat : ℚ) : Bool :=
  match F.spatialMask with
  | some m => m lon lat
  | none => pointInExtent F lon lat

/-- Embeds `notContains`. -/
def notContains (F : Field α) (lon lat : ℚ) : Bool :=
  !(contains F lon lat)

/-- Embeds `_getDecimalIndexes`. -/
def getDecimalIndexes (F : Field α) (lon lat : ℚ) : ℚ × ℚ :=
  let lon2 := if longitudeNeedsToBeWrapped F ∧ lon < F.xllCorner then lon + 360 else lon
  ((lon2 - F.xllCorner) / F.cellXSize, (yurCorner F - lat) / F.cellYSize)

/-- Embeds `_clampColumnIndex`: both `if`s test the raw input `ii`. -/
def clampColumnIndex (F : Field α) (ii : ℤ) : ℤ :=
  let i := if ii < 0 then 0 else ii
  if (F.nCols : ℤ) - 1 < ii then (F.nCols : ℤ) - 1 else i

/-- Embeds `_clampRowIndex`. -/
def clampRowIndex (F : Field α) (jj : ℤ) : ℤ :=
  let j := if jj < 0 then 0 else jj
  if (F.nRows : ℤ) - 1 < jj then (F.nRows : ℤ) - 1 else j

/-- JS array indexing `l[i]`: any index outside the array yields `undefined`
(modelled as `none`), never an error. -/
def jsIndex {β : Type} (l : List β) (i : ℤ) : Option β :=
  if i < 0 then none else l.get? i.toNat

/-- A grid-row read `row[i]`: `undefined` (index out of range) and a stored
`null` cell both fail the source's `_isValid` test, so both collapse to
`none`. -/
def jsCell (row : List (Option α)) (i : ℤ) : Option α :=
  (jsIndex row i).join

/-- `this.grid[j][i]` with both levels of JS indexing. -/
def jsGridGet (grid : List (List (Option α))) (j i : ℤ) : Option α :=
  match jsIndex grid j with
  | none => none
  | some row => jsCell row i

/-- Embeds `_valueAtIndexes(i, j) = this.grid[j][i]`. -/
def valueAtIndexes (F : Field α) (i j : ℤ) : Option α :=
  jsGridGet F.grid j i

/-- Embeds `valueAt`: nearest-cell lookup with clamping and the filter. -/
def valueAt (F : Field α) (lon lat : ℚ) : Option α :=
  if notContains F lon lat then none
  else
    let ij := getDecimalIndexes F lon lat
    let ii := ⌊ij.1⌋
    let jj := ⌊ij.2⌋
    let ci := clampColumnIndex F ii
    let cj := clampRowIndex F jj
    let value := valueAtIndexes F ci cj
    match F.inFilter with
    | some f => if f value then value else none
    | none => value

/-- Embeds `hasValueAt`: the filter (when set) is applied to the value
returned by `valueAt` (which may be `null`). -/
def hasValueAt (F : Field α) (lon lat : ℚ) : Bool :=
  let value := valueAt F lon lat
  let hasValue := value.isSome
  let included :=
    match F.inFilter with
    | some f => f value
    | none => true
  hasValue && included

/-- Embeds `_getFourSurroundingIndexes`: `fi = floor(i)` (not clamped);
`ci = fi + 1`, replaced by 0 for continuous grids when it reaches `nCols`,
then clamped; `fj`, `cj` clamped. -/
def getFourSurroundingIndexes (F : Field α) (i j : ℚ) : ℤ × ℤ × ℤ × ℤ :=
  let fi := ⌊i⌋
  let ci0 := fi + 1
  let ci1 := if isContinuous F ∧ (F.nCols : ℤ) ≤ ci0 then 0 else ci0
  let ci := clampColumnIndex F ci1
  let fj := clampRowIndex F ⌊j⌋
  let cj := clampRowIndex F (fj + 1)
  (fi, ci, fj, cj)

/-- Embeds `_getFourSurroundingValues`: all four cells must pass `_isValid`,
otherwise `null`. -/
def getFourSurroundingValues (grid : List (List (Option α))) (fi ci fj cj : ℤ) :
    Option (α × α × α × α) :=
  match jsIndex grid fj with
  | none => none
  | some row =>
    match jsCell row fi, jsCell row ci with
    | some g00, some g10 =>
      (match jsIndex grid cj with
       | none => none
       | some row2 =>
         match jsCell row2 fi, jsCell row2 ci with
         | some g01, some g11 => some (g00, g10, g01, g11)
         | _, _ => none)
    | _, _ => none

/-- Embeds `interpolatedValueAtIndexes`; the subclass's `_doInterpolation`
is passed explicitly. -/
def interpolatedValueAtIndexes (doInterp : ℚ → ℚ → α → α → α → α → α)
    (F : Field α) (i j : ℚ) : Option α :=
  let idx := getFourSurroundingIndexes F i j
  match getFourSurroundingValues F.grid idx.1 idx.2.1 idx.2.2.1 idx.2.2.2 with
  | some g => some (doInterp (i - idx.1) (j - idx.2.2.1) g.1 g.2.1 g.2.2.1 g.2.2.2)
  | none => none

/-- Embeds `interpolatedValueAt`. -/
def interpolatedValueAt (doInterp : ℚ → ℚ → α → α → α → α → α)
    (F : Field α) (lon lat : ℚ) : Option α :=
  if notContains F lon lat then none
  else
    let ij := getDecimalIndexes F lon lat
    interpolatedValueAtIndexes doInterp F ij.1 ij.2

/-- Embeds `_longitudeAtX`: center longitude of column `i`, wrapped into
(-180, 180] when the grid needs wrapping. -/
def longitudeAtX (F : Field α) (i : ℤ) : ℚ :=
  let halfXPixel := F.cellXSize / 2
  let lon := F.xllCorner + halfXPixel + i * F.cellXSize
  if longitudeNeedsToBeWrapped F then
    (if (180 : ℚ) < lon then lon - 360 else lon)
  else lon

/-- Embeds `_latitudeAtY`: center latitude of row `j`. -/
def latitudeAtY (F : Field α) (j : ℤ) : ℚ :=
  yurCorner F - F.cellYSize / 2 - j * F.cellYSize

/-- Embeds `randomPosition`: the code draws `i = ⌊random·nCols⌋`,
`j = ⌊random·nRows⌋` and converts them to cell-center coordinates; the drawn
indexes are taken here as explicit inputs. -/
def randomPosition (F : Field α) (i j : ℤ) : ℚ × ℚ :=
  (longitudeAtX F i, latitudeAtY F j)

/-- Embeds `ScalarField._doInterpolation`: four-weight bilinear blend. -/
def scalarDoInterpolation (x y g00 g10 g01 g11 : ℚ) : ℚ :=
  let rx := 1 - x
  let ry := 1 - y
  g00 * rx * ry + g10 * x * ry + g01 * rx * y + g11 * x * y

/-- Embeds `VectorField._doInterpolation`: the same weights applied
independently to each component, producing a new `Vector`. -/
def vectorDoInterpolation (x y : ℚ) (g00 g10 g01 g11 : Vector) : Vector :=
  let rx := 1 - x
  let ry := 1 - y
  let a := rx * ry
  let b := x * ry
  let c := rx * y
  let d := x * y
  ⟨g00.u * a + g10.u * b + g01.u * c + g11.u * d,
   g00.v * a + g10.v * b + g01.v * c + g11.v * d⟩

/-- The structured grid descriptor fed to the `ScalarField` constructor:
`{nCols, nRows, xllCorner, yllCorner, cellXSize, cellYSize, zs}`. Entries of
`zs` may already be `null` (no-data), hence `Option ℚ`. -/
structure SFParams where
  nCols : ℕ
  nRows : ℕ
  xllCorner : ℚ
  yllCorner : ℚ
  cellXSize : ℚ
  cellYSize : ℚ
  zs : List (Option ℚ)

/-- Embeds `ScalarField._arrayTo2d`: row-major reshape, position
`p = j * nCols + i`; a read past the end of `array` gives `undefined`, and
`_isValid` turns both `undefined` and `null` into a stored `null`. -/
def arrayTo2d (array : List (Option ℚ)) (nRows nCols : ℕ) : List (List (Option ℚ)) :=
  (List.range nRows).map (fun j =>
    (List.range nCols).map (fun i => (array.get? (j * nCols + i)).join))

/-- `d3.min` over an array that may hold nulls: nulls are skipped; the result
is `undefined` (here `none`) when no valid entry exists. -/
def d3min (l : List (Option ℚ)) : Option ℚ :=
  l.foldl (fun acc x =>
    match acc, x with
    | none, x => x
    | some a, none => some a
    | some a, some b => some (min a b)) none

/-- `d3.max`, analogous to `d3min`. -/
def d3max (l : List (Option ℚ)) : Option ℚ :=
  l.foldl (fun acc x =>
    match acc, x with
    | none, x => x
    | some a, none => some a
    | some a, some b => some (max a b)) none

/-- Embeds `ScalarField._calculateRange`: `zs` filtered by `_inFilter` when
set, then `[d3.min, d3.max]`. -/
def scalarCalculateRange (zs : List (Option ℚ)) (filt : Option (Option ℚ → Bool)) :
    Option ℚ × Option ℚ :=
  let data := match filt with
    | some f => zs.filter f
    | none => zs
  (d3min data, d3max data)

/-- Embeds the `ScalarField` subclass: the base `Field` plus the flat source
array `zs`. -/
structure ScalarField extends Field ℚ where
  zs : List (Option ℚ)

/-- Embeds the `ScalarField` constructor: stores `zs`, builds the grid with
`_arrayTo2d`, and computes the initial range (no filter yet). It performs no
validation of the declared dimensions against `zs.length`. -/
def ScalarField.make (p : SFParams) : ScalarField :=
  { nCols := p.nCols
    nRows := p.nRows
    xllCorner := p.xllCorner
    yllCorner := p.yllCorner
    cellXSize := p.cellXSize
    cellYSize := p.cellYSize
    grid := arrayTo2d p.zs p.nRows p.nCols
    inFilter := none
    spatialMask := none
    range := scalarCalculateRange p.zs none
    zs := p.zs }

/-- Embeds `Field.setFilter` as specialized by `ScalarField`: store the new
`_inFilter`, then `_updateRange` recomputes `range` via `_calculateRange`. -/
def ScalarField.setFilter (S : ScalarField) (f : Option ℚ → Bool) : ScalarField :=
  { S with
    inFilter := some f
    range := scalarCalculateRange S.zs (some f) }

/-- The descriptor fed to the `VectorField` constructor: two flat component
arrays `us`, `vs`. -/
structure VFParams where
  nCols : ℕ
  nRows : ℕ
  xllCorner : ℚ
  yllCorner : ℚ
  cellXSize : ℚ
  cellYSize : ℚ
  us : List (Option ℚ)
  vs : List (Option ℚ)

/-- Embeds `VectorField._arraysTo2d`: a cell is a `Vector` when both
components are valid at that position, `null` otherwise. -/
def arraysTo2d (us vs : List (Option ℚ)) (nRows nCols : ℕ) :
    List (List (Option Vector)) :=
  (List.range nRows).map (fun j =>
    (List.range nCols).map (fun i =>
      match (us.get? (j * nCols + i)).join, (vs.get? (j * nCols + i)).join with
      | some u, some v => some ⟨u, v⟩
      | _, _ => none))

/-- Embeds the `VectorField` constructor's `Field` state. Its `range` is
`[min, max]` of the cell magnitudes (`√(u²+v²)`, an irrational quantity no
claim depends on); it is left unpopulated in this rational model. -/
def VectorField.make (p : VFParams) : Field Vector :=
  { nCols := p.nCols
    nRows := p.nRows
    xllCorner := p.xllCorner
    yllCorner := p.yllCorner
    cellXSize := p.cellXSize
    cellYSize := p.cellYSize
    grid := arraysTo2d p.us p.vs p.nRows p.nCols
    inFilter := none
    spatialMask := none
    range := (none, none) }

/-- A particle of the `VectorFieldAnim` pool: position `(x, y)`, committed
next position `(xt, yt)`, committed step sample `m`, and `age`. The code
stores `vector.magnitude()` in `m`; the model stores the sampled vector
itself, which determines that magnitude, keeping the state rational. -/
structure Particle where
  x : ℚ
  y : ℚ
  xt : ℚ
  yt : ℚ
  m : Option Vector
  age : ℕ
deriving DecidableEq

/-- The respawn stage at the top of the `_moveParticles` loop body:
`if (par.age > maxAge) { par.age = 0; field.randomPosition(par); }`.
The random index draw `(ri, rj)` is an explicit input. -/
def respawnIfOld (F : Field Vector) (maxAge : ℕ) (ri rj : ℤ) (par : Particle) :
    Particle :=
  if maxAge < par.age then
    { par with age := 0, x := (randomPosition F ri rj).1, y := (randomPosition F ri rj).2 }
  else par

/-- The advance stage of the `_moveParticles` loop body: sample the field at
the particle's position; on a valid sample Euler-integrate and commit
`xt, yt, m` when the candidate position has a value, otherwise force
`age = maxAge`; finally `par.age += 1` runs for every particle. -/
def advanceParticle (F : Field Vector) (maxAge : ℕ) (velocityScale : ℚ)
    (par : Particle) : Particle :=
  let par2 :=
    match valueAt F par.x par.y with
    | none => { par with age := maxAge }
    | some vec =>
      let xt := par.x + vec.u * velocityScale
      let yt := par.y + vec.v * velocityScale
      if hasValueAt F xt yt then { par with xt := xt, yt := yt, m := some vec }
      else { par with age := maxAge }
  { par2 with age := par2.age + 1 }

/-- Embeds one particle's pass through the `_moveParticles` loop body:
respawn check, then sample/advance, then the unconditional age increment. -/
def moveParticle (F : Field Vector) (maxAge : ℕ) (velocityScale : ℚ)
    (ri rj : ℤ) (par : Particle) : Particle :=
  advanceParticle F maxAge velocityScale (respawnIfOld F maxAge ri rj par)

/-! Concrete instances used by the scenario claims, counterexamples and
witnesses. -/

/-- The spec's scenario descriptor: 2×2 grid, `xllCorner=0, yllCorner=0`,
cell size 1, values `[[1,2],[3,4]]` flattened y-descending. -/
def p1 : SFParams :=
  ⟨2, 2, 0, 0, 1, 1, [some 1, some 2, some 3, some 4]⟩

/-- The scenario field itself. -/
def F1 : Field ℚ :=
  (ScalarField.make p1).toField

/-- A 2×2 vector field, constant vector (1, 1), for particle-tick inputs. -/
def FV : Field Vector :=
  VectorField.make ⟨2, 2, 0, 0, 1, 1,
    [some 1, some 1, some 1, some 1], [some 1, some 1, some 1, some 1]⟩

/-- A descriptor whose declared dimensions (2×2 = 4 cells) do not match its
3-element flat array. -/
def p3 : SFParams :=
  ⟨2, 2, 0, 0, 1, 1, [some 1, some 2, some 3]⟩

/-- A non-continuous field whose upper-right longitude exceeds 180°:
200 one-degree columns starting at 100°E. -/
def Fw : Field ℚ :=
  { nCols := 200, nRows := 1, xllCorner := 100, yllCorner := 0,
    cellXSize := 1, cellYSize := 1, grid := [[none]],
    inFilter := none, spatialMask := none, range := (none, none) }

/-! Shared evaluation lemmas on the concrete scenario field `F1`. -/

lemma F1_grid : F1.grid = [[some 1, some 2], [some 3, some 4]] := rfl

lemma F1_valueAt_center : valueAt F1 (1/2) (3/2) = some 1 := by
  norm_num [valueAt, F1, ScalarField.make, p1, notContains, contains, pointInExtent,
    getWrappedLongitudes, longitudeNeedsToBeWrapped, isContinuous, xurCorner, yurCorner,
    getDecimalIndexes, clampColumnIndex, clampRowIndex, valueAtIndexes, jsGridGet,
    jsIndex, jsCell, arrayTo2d, List.range_succ]

lemma F1_interp_corner : interpolatedValueAt scalarDoInterpolation F1 1 1 = some 4 := by
  norm_num [interpolatedValueAt, interpolatedValueAtIndexes, getFourSurroundingIndexes,
    getFourSurroundingValues, scalarDoInterpolation, F1, ScalarField.make, p1,
    notContains, contains, pointInExtent, getWrappedLongitudes, longitudeNeedsToBeWrapped,
    isContinuous, xurCorner, yurCorner, getDecimalIndexes, clampColumnIndex, clampRowIndex,
    jsIndex, jsCell, arrayTo2d, List.range_succ]

lemma F1_interp_center :
    interpolatedValueAt scalarDoInterpolation F1 (1/2) (3/2) = some (5/2) := by
  norm_num [interpolatedValueAt, interpolatedValueAtIndexes, getFourSurroundingIndexes,
    getFourSurroundingValues, scalarDoInterpolation, F1, ScalarField.make, p1,
    notContains, contains, pointInExtent, getWrappedLongitudes, longitudeNeedsToBeWrapped,
    isContinuous, xurCorner, yurCorner, getDecimalIndexes, clampColumnIndex, clampRowIndex,
    jsIndex, jsCell, arrayTo2d, List.range_succ]

lemma F1_lonAt0 : longitudeAtX F1 0 = 1/2 := by
  norm_num [longitudeAtX, longitudeNeedsToBeWrapped, xurCorner, F1, ScalarField.make, p1]

lemma F1_latAt0 : latitudeAtY F1 0 = 3/2 := by
  norm_num [latitudeAtY, yurCorner, F1, ScalarField.make, p1]

/-! Claim C1: the spec's 2×2 scenario. -/

/-- C1 counterexample: on the scenario grid, `valueAt(0.5, 1.5)` is indeed 1,
but `interpolatedValueAt(1.0, 1.0)` is 4, not the four-cell average 2.5: the
bilinear nodes sit at integer decimal indexes, so at (1.0, 1.0) all four
blend weights fall on grid cell (1, 1), whose value is 4. -/
theorem c1_counterexample :
    valueAt F1 (1/2) (3/2) = some 1 ∧
    interpolatedValueAt scalarDoInterpolation F1 1 1 = some 4 ∧
    interpolatedValueAt scalarDoInterpolation F1 1 1 ≠ some (5/2) := by
  refine ⟨F1_valueAt_center, F1_interp_corner, ?_⟩
  rw [F1_interp_corner]
  norm_num

/-- C1 amended: for the ScalarField built from nCols=2, nRows=2, xllCorner=0,
yllCorner=0, cellXSize=1, cellYSize=1 and flat values [1,2,3,4] (y-descending
row-major), `valueAt(0.5, 1.5)` returns 1 (the upper-left cell value) and
`interpolatedValueAt(1.0, 1.0)` returns 4 (the value of the lower-right cell,
onto which the bilinear weights collapse at an integer decimal index). -/
theorem c1_scenario :
    valueAt F1 (1/2) (3/2) = some 1 ∧
    interpolatedValueAt scalarDoInterpolation F1 1 1 = some 4 :=
  ⟨F1_valueAt_center, F1_interp_corner⟩

/-! General helper lemmas: clamping and cell-center geometry. -/

lemma clampColumnIndex_eq (F : Field α) (ii : ℤ) :
    clampColumnIndex F ii =
      if (F.nCols : ℤ) - 1 < ii then (F.nCols : ℤ) - 1 else if ii < 0 then 0 else ii := rfl

lemma clampRowIndex_eq (F : Field α) (jj : ℤ) :
    clampRowIndex F jj =
      if (F.nRows : ℤ) - 1 < jj then (F.nRows : ℤ) - 1 else if jj < 0 then 0 else jj := rfl

lemma clampRowIndex_of_lt (F : Field α) {jj : ℤ} (h0 : 0 ≤ jj) (h1 : jj < (F.nRows : ℤ)) :
    clampRowIndex F jj = jj := by
  rw [clampRowIndex_eq, if_neg (by omega), if_neg (by omega)]

lemma clampColumnIndex_bounds (F : Field α) (hC : 0 < F.nCols) (ii : ℤ) :
    0 ≤ clampColumnIndex F ii ∧ clampColumnIndex F ii ≤ (F.nCols : ℤ) - 1 := by
  have h : (1 : ℤ) ≤ (F.nCols : ℤ) := by exact_mod_cast hC
  rw [clampColumnIndex_eq]
  split
  · omega
  · split <;> omega

lemma clampRowIndex_bounds (F : Field α) (hR : 0 < F.nRows) (jj : ℤ) :
    0 ≤ clampRowIndex F jj ∧ clampRowIndex F jj ≤ (F.nRows : ℤ) - 1 := by
  have h : (1 : ℤ) ≤ (F.nRows : ℤ) := by exact_mod_cast hR
  rw [clampRowIndex_eq]
  split
  · omega
  · split <;> omega

lemma floor_cast_add_half (n : ℕ) : ⌊(n : ℚ) + 1/2⌋ = (n : ℤ) := by
  rw [Int.floor_nat_add]
  norm_num

lemma getDecimalIndexes_cellCenter (F : Field α) (i0 j0 : ℕ)
    (hcx : F.cellXSize ≠ 0) (hcy : F.cellYSize ≠ 0)
    (hw : longitudeNeedsToBeWrapped F = false) :
    getDecimalIndexes F (longitudeAtX F i0) (latitudeAtY F j0)
      = ((i0 : ℚ) + 1/2, (j0 : ℚ) + 1/2) := by
  unfold getDecimalIndexes longitudeAtX latitudeAtY yurCorner
  rw [hw]
  simp only [Bool.false_eq_true, false_and, if_false, ite_false]
  refine Prod.ext ?_ ?_
  · show (F.xllCorner + F.cellXSize/2 + (i0 : ℚ) * F.cellXSize - F.xllCorner) / F.cellXSize
        = (i0 : ℚ) + 1/2
    field_simp
    ring
  · show (F.yllCorner + (F.nRows : ℚ) * F.cellYSize -
          (F.yllCorner + (F.nRows : ℚ) * F.cellYSize - F.cellYSize/2 - (j0 : ℚ) * F.cellYSize))
          / F.cellYSize = (j0 : ℚ) + 1/2
    field_simp
    ring

lemma notContains_cellCenter (F : Field α) (i0 j0 : ℕ)
    (hi : i0 < F.nCols) (hj : j0 < F.nRows)
    (hcx : 0 < F.cellXSize) (hcy : 0 < F.cellYSize)
    (hw : longitudeNeedsToBeWrapped F = false) (hmask : F.spatialMask = none) :
    notContains F (longitudeAtX F i0) (latitudeAtY F j0) = false := by
  have hi' : (i0 : ℚ) + 1 ≤ (F.nCols : ℚ) := by exact_mod_cast Nat.succ_le_of_lt hi
  have hj' : (j0 : ℚ) + 1 ≤ (F.nRows : ℚ) := by exact_mod_cast Nat.succ_le_of_lt hj
  have hi0 : (0 : ℚ) ≤ (i0 : ℚ) := Nat.cast_nonneg i0
  have hj0 : (0 : ℚ) ≤ (j0 : ℚ) := Nat.cast_nonneg j0
  have e1 : (0 : ℚ) ≤ (i0 : ℚ) * F.cellXSize := mul_nonneg hi0 hcx.le
  have e2 : (0 : ℚ) ≤ ((F.nCols : ℚ) - i0 - 1) * F.cellXSize :=
    mul_nonneg (by linarith) hcx.le
  have e3 : (0 : ℚ) ≤ (j0 : ℚ) * F.cellYSize := mul_nonneg hj0 hcy.le
  have e4 : (0 : ℚ) ≤ ((F.nRows : ℚ) - j0 - 1) * F.cellYSize :=
    mul_nonneg (by linarith) hcy.le
  unfold notContains contains pointInExtent getWrappedLongitudes
  rw [hmask, hw]
  unfold longitudeAtX latitudeAtY xurCorner yurCorner
  rw [hw]
  simp only [Bool.false_eq_true, if_false, ite_false, Bool.not_eq_false', Bool.and_eq_true,
    decide_eq_true_eq]
  push_cast
  refine ⟨⟨by nlinarith, by nlinarith⟩, ⟨by nlinarith, by nlinarith⟩⟩

/-! Claim C2: bilinear interpolation at cell centers. -/

/-- C2 counterexample: for the scenario field, (0.5, 1.5) is the exact center
of cell (0, 0), all four surrounding values are valid, yet
`interpolatedValueAt(0.5, 1.5)` is 2.5 (the four-cell average) while
`valueAt(0.5, 1.5)` is 1: interpolation is not exact at cell centers,
because the code's bilinear nodes sit at integer decimal indexes (cell
corners), not at cell centers. -/
theorem c2_counterexample :
    longitudeAtX F1 0 = 1/2 ∧ latitudeAtY F1 0 = 3/2 ∧
    interpolatedValueAt scalarDoInterpolation F1 (1/2) (3/2) = some (5/2) ∧
    valueAt F1 (1/2) (3/2) = some 1 ∧ (5/2 : ℚ) ≠ 1 := by
  exact ⟨F1_lonAt0, F1_latAt0, F1_interp_center, F1_valueAt_center, by norm_num⟩

/-- C2 amended: at the exact center of grid cell (i0, j0) (fractional indexes
(i0+1/2, j0+1/2)), when the four surrounding values g00, g10, g01, g11 are
all valid, `interpolatedValueAt` returns their equal-weight average
(g00+g10+g01+g11)/4 — which coincides with `valueAt` only when that average
equals the cell's own value, not in general. (Stated for a non-wrapping,
unmasked field with positive cell sizes.) -/
theorem c2_cellCenterAverage (F : Field ℚ) (i0 j0 : ℕ)
    (hi : i0 < F.nCols) (hj : j0 < F.nRows)
    (hcx : 0 < F.cellXSize) (hcy : 0 < F.cellYSize)
    (hw : longitudeNeedsToBeWrapped F = false) (hmask : F.spatialMask = none)
    (g00 g10 g01 g11 : ℚ)
    (hv : getFourSurroundingValues F.grid
        (getFourSurroundingIndexes F ((i0 : ℚ) + 1/2) ((j0 : ℚ) + 1/2)).1
        (getFourSurroundingIndexes F ((i0 : ℚ) + 1/2) ((j0 : ℚ) + 1/2)).2.1
        (getFourSurroundingIndexes F ((i0 : ℚ) + 1/2) ((j0 : ℚ) + 1/2)).2.2.1
        (getFourSurroundingIndexes F ((i0 : ℚ) + 1/2) ((j0 : ℚ) + 1/2)).2.2.2
        = some (g00, g10, g01, g11)) :
    interpolatedValueAt scalarDoInterpolation F (longitudeAtX F i0) (latitudeAtY F j0)
      = some ((g00 + g10 + g01 + g11) / 4) := by
  have hfi : (getFourSurroundingIndexes F ((i0 : ℚ) + 1/2) ((j0 : ℚ) + 1/2)).1 = (i0 : ℤ) :=
    floor_cast_add_half i0
  have hfj : (getFourSurroundingIndexes F ((i0 : ℚ) + 1/2) ((j0 : ℚ) + 1/2)).2.2.1
      = (j0 : ℤ) := by
    show clampRowIndex F ⌊(j0 : ℚ) + 1/2⌋ = (j0 : ℤ)
    rw [floor_cast_add_half]
    exact clampRowIndex_of_lt F (Int.natCast_nonneg j0) (by exact_mod_cast hj)
  rw [interpolatedValueAt, if_neg (by
    rw [notContains_cellCenter F i0 j0 hi hj hcx hcy hw hmask]
    simp)]
  rw [getDecimalIndexes_cellCenter F i0 j0 hcx.ne.symm hcy.ne.symm hw]
  show interpolatedValueAtIndexes scalarDoInterpolation F ((i0 : ℚ) + 1/2) ((j0 : ℚ) + 1/2)
      = some ((g00 + g10 + g01 + g11) / 4)
  rw [interpolatedValueAtIndexes]
  rw [hv]
  rw [hfi, hfj]
  show some (scalarDoInterpolation ((i0 : ℚ) + 1/2 - (i0 : ℤ)) ((j0 : ℚ) + 1/2 - (j0 : ℤ))
      g00 g10 g01 g11) = some ((g00 + g10 + g01 + g11) / 4)
  have hx : ((i0 : ℚ) + 1/2 - ((i0 : ℤ) : ℚ)) = 1/2 := by push_cast; ring
  have hy : ((j0 : ℚ) + 1/2 - ((j0 : ℤ) : ℚ)) = 1/2 := by push_cast; ring
  rw [hx, hy]
  unfold scalarDoInterpolation
  norm_num
  ring

/-- C2 witness: the amended theorem applied to the scenario field at cell
(0, 0) gives the concrete average (1+2+3+4)/4. -/
theorem c2_cellCenterAverage_witness :
    interpolatedValueAt scalarDoInterpolation F1 (longitudeAtX F1 0) (latitudeAtY F1 0)
      = some (((1 : ℚ) + 2 + 3 + 4) / 4) := by
  refine c2_cellCenterAverage F1 0 0 (by decide) (by decide) ?_ ?_ ?_ rfl 1 2 3 4 ?_
  · norm_num [F1, ScalarField.make, p1]
  · norm_num [F1, ScalarField.make, p1]
  · norm_num [longitudeNeedsToBeWrapped, xurCorner, F1, ScalarField.make, p1]
  · norm_num [getFourSurroundingIndexes, getFourSurroundingValues, clampColumnIndex,
      clampRowIndex, isContinuous, xurCorner, F1, ScalarField.make, p1, jsIndex, jsCell,
      arrayTo2d, List.range_succ]

/-! Claim C3: index clamping. -/

/-- C3 counterexample: for the decimal indexes (-0.5, 0.5) on the scenario
field, `_getFourSurroundingIndexes` leaves `fi = -1` unclamped (only ci, fj,
cj are clamped), and the interpolation query returns invalid (`null`), not
the boundary column's value. -/
theorem c3_counterexample :
    (getFourSurroundingIndexes F1 (-1/2) (1/2)).1 = -1 ∧
    interpolatedValueAtIndexes scalarDoInterpolation F1 (-1/2) (1/2) = none := by
  constructor
  · show ⌊(-1/2 : ℚ)⌋ = -1
    norm_num
  · norm_num [interpolatedValueAtIndexes, getFourSurroundingIndexes,
      getFourSurroundingValues, F1, ScalarField.make, p1, isContinuous, xurCorner,
      clampColumnIndex, clampRowIndex, jsIndex, jsCell, arrayTo2d, List.range_succ]

/-- C3 amended: `_clampColumnIndex` / `_clampRowIndex` clamp any out-of-range
raw index to the nearest boundary and leave in-range indexes unchanged (this
is what `valueAt`'s nearest lookup applies to both of its indexes); in
`_getFourSurroundingIndexes` the clamp is applied to ci, fj and cj — which
therefore always land in range — but NOT to fi, which stays `⌊i⌋`, so an
interpolation query with `⌊i⌋` out of range yields invalid rather than the
boundary column's value (still no error). -/
theorem c3_clampingScope {α : Type} (F : Field α) (hC : 0 < F.nCols) (hR : 0 < F.nRows)
    (ii jj : ℤ) (i j : ℚ) :
    (ii < 0 → clampColumnIndex F ii = 0) ∧
    ((F.nCols : ℤ) - 1 < ii → clampColumnIndex F ii = (F.nCols : ℤ) - 1) ∧
    (0 ≤ ii → ii ≤ (F.nCols : ℤ) - 1 → clampColumnIndex F ii = ii) ∧
    (jj < 0 → clampRowIndex F jj = 0) ∧
    ((F.nRows : ℤ) - 1 < jj → clampRowIndex F jj = (F.nRows : ℤ) - 1) ∧
    (0 ≤ jj → jj ≤ (F.nRows : ℤ) - 1 → clampRowIndex F jj = jj) ∧
    (getFourSurroundingIndexes F i j).1 = ⌊i⌋ ∧
    (0 ≤ (getFourSurroundingIndexes F i j).2.1 ∧
      (getFourSurroundingIndexes F i j).2.1 ≤ (F.nCols : ℤ) - 1) ∧
    (0 ≤ (getFourSurroundingIndexes F i j).2.2.1 ∧
      (getFourSurroundingIndexes F i j).2.2.1 ≤ (F.nRows : ℤ) - 1) ∧
    (0 ≤ (getFourSurroundingIndexes F i j).2.2.2 ∧
      (getFourSurroundingIndexes F i j).2.2.2 ≤ (F.nRows : ℤ) - 1) := by
  have hc1 : (1 : ℤ) ≤ (F.nCols : ℤ) := by exact_mod_cast hC
  have hr1 : (1 : ℤ) ≤ (F.nRows : ℤ) := by exact_mod_cast hR
  refine ⟨?_, ?_, ?_, ?_, ?_, ?_, rfl, ?_, ?_, ?_⟩
  · intro h
    rw [clampColumnIndex_eq, if_neg (by omega), if_pos h]
  · intro h
    rw [clampColumnIndex_eq, if_pos h]
  · intro h0 h1
    rw [clampColumnIndex_eq, if_neg (by omega), if_neg (by omega)]
  · intro h
    rw [clampRowIndex_eq, if_neg (by omega), if_pos h]
  · intro h
    rw [clampRowIndex_eq, if_pos h]
  · intro h0 h1
    rw [clampRowIndex_eq, if_neg (by omega), if_neg (by omega)]
  · exact clampColumnIndex_bounds F hC _
  · exact clampRowIndex_bounds F hR _
  · exact clampRowIndex_bounds F hR _

/-- C3 witness: the clamp cases of the amended theorem at concrete
out-of-range indexes on the scenario field. -/
theorem c3_clampingScope_witness :
    clampColumnIndex F1 5 = (F1.nCols : ℤ) - 1 ∧ clampRowIndex F1 (-3) = 0 :=
  ⟨(c3_clampingScope F1 (by decide) (by decide) 5 (-3) 0 0).2.1 (by decide),
   (c3_clampingScope F1 (by decide) (by decide) 5 (-3) 0 0).2.2.2.1 (by decide)⟩

/-! Claim C4: the bilinear interpolation pipeline. -/

/-- C4 counterexample: at fractional indexes (0, -0.5) on the scenario field
the claim's `fj = floor(j) = -1` would address a missing row, making the
result invalid; the code instead clamps `fj` to 0 and returns the
extrapolated blend `some 0`. -/
theorem c4_counterexample :
    ⌊(-1/2 : ℚ)⌋ = -1 ∧
    (getFourSurroundingIndexes F1 0 (-1/2)).2.2.1 = 0 ∧
    interpolatedValueAtIndexes scalarDoInterpolation F1 0 (-1/2) = some 0 := by
  refine ⟨by norm_num, ?_, ?_⟩
  · norm_num [getFourSurroundingIndexes, F1, ScalarField.make, p1, isContinuous,
      xurCorner, clampColumnIndex, clampRowIndex]
  · have h1 : getFourSurroundingIndexes F1 0 (-1/2) = (0, 1, 0, 1) := by
      norm_num [getFourSurroundingIndexes, F1, ScalarField.make, p1, isContinuous,
        xurCorner, clampColumnIndex, clampRowIndex]
    have h2 : getFourSurroundingValues F1.grid 0 1 0 1 = some (1, 2, 3, 4) := by
      norm_num [getFourSurroundingValues, F1, ScalarField.make, p1, jsIndex, jsCell,
        arrayTo2d, List.range_succ]
    rw [interpolatedValueAtIndexes, h1]
    norm_num [h2, scalarDoInterpolation]

/-- C4 amended: `interpolatedValueAtIndexes` uses `fi = ⌊i⌋`,
`fj = clamp(⌊j⌋)`, `cj = clamp(fj + 1)`, and `ci = clamp(fi + 1)` except that
a continuous field with `fi + 1 ≥ nCols` wraps `ci` to column 0 first; if any
of the four surrounding grid values is invalid the result is invalid (no
partial interpolation), and otherwise the result is the four-weight bilinear
blend with offsets `x = i - fi`, `y = j - fj` (the clamped fj) — applied
independently to the u and v components for vector fields, producing a new
Vector. -/
theorem c4_interpolationSpec (Fs : Field ℚ) (Fv : Field Vector) (i j : ℚ) :
    ((getFourSurroundingIndexes Fs i j).1 = ⌊i⌋) ∧
    ((getFourSurroundingIndexes Fs i j).2.2.1 = clampRowIndex Fs ⌊j⌋) ∧
    ((getFourSurroundingIndexes Fs i j).2.2.2
        = clampRowIndex Fs (clampRowIndex Fs ⌊j⌋ + 1)) ∧
    ((isContinuous Fs = true ∧ (Fs.nCols : ℤ) ≤ ⌊i⌋ + 1) →
        (getFourSurroundingIndexes Fs i j).2.1 = clampColumnIndex Fs 0) ∧
    (¬ (isContinuous Fs = true ∧ (Fs.nCols : ℤ) ≤ ⌊i⌋ + 1) →
        (getFourSurroundingIndexes Fs i j).2.1 = clampColumnIndex Fs (⌊i⌋ + 1)) ∧
    (getFourSurroundingValues Fs.grid (getFourSurroundingIndexes Fs i j).1
        (getFourSurroundingIndexes Fs i j).2.1 (getFourSurroundingIndexes Fs i j).2.2.1
        (getFourSurroundingIndexes Fs i j).2.2.2 = none →
      interpolatedValueAtIndexes scalarDoInterpolation Fs i j = none) ∧
    (∀ g00 g10 g01 g11 : ℚ,
      getFourSurroundingValues Fs.grid (getFourSurroundingIndexes Fs i j).1
        (getFourSurroundingIndexes Fs i j).2.1 (getFourSurroundingIndexes Fs i j).2.2.1
        (getFourSurroundingIndexes Fs i j).2.2.2 = some (g00, g10, g01, g11) →
      interpolatedValueAtIndexes scalarDoInterpolation Fs i j
        = some (g00 * (1 - (i - (⌊i⌋ : ℚ))) * (1 - (j - ((clampRowIndex Fs ⌊j⌋ : ℤ) : ℚ)))
            + g10 * (i - (⌊i⌋ : ℚ)) * (1 - (j - ((clampRowIndex Fs ⌊j⌋ : ℤ) : ℚ)))
            + g01 * (1 - (i - (⌊i⌋ : ℚ))) * (j - ((clampRowIndex Fs ⌊j⌋ : ℤ) : ℚ))
            + g11 * (i - (⌊i⌋ : ℚ)) * (j - ((clampRowIndex Fs ⌊j⌋ : ℤ) : ℚ)))) ∧
    (∀ g00 g10 g01 g11 : Vector,
      getFourSurroundingValues Fv.grid (getFourSurroundingIndexes Fv i j).1
        (getFourSurroundingIndexes Fv i j).2.1 (getFourSurroundingIndexes Fv i j).2.2.1
        (getFourSurroundingIndexes Fv i j).2.2.2 = some (g00, g10, g01, g11) →
      interpolatedValueAtIndexes vectorDoInterpolation Fv i j
        = some ⟨g00.u * (1 - (i - (⌊i⌋ : ℚ))) * (1 - (j - ((clampRowIndex Fv ⌊j⌋ : ℤ) : ℚ)))
            + g10.u * (i - (⌊i⌋ : ℚ)) * (1 - (j - ((clampRowIndex Fv ⌊j⌋ : ℤ) : ℚ)))
            + g01.u * (1 - (i - (⌊i⌋ : ℚ))) * (j - ((clampRowIndex Fv ⌊j⌋ : ℤ) : ℚ))
            + g11.u * (i - (⌊i⌋ : ℚ)) * (j - ((clampRowIndex Fv ⌊j⌋ : ℤ) : ℚ)),
          g00.v * (1 - (i - (⌊i⌋ : ℚ))) * (1 - (j - ((clampRowIndex Fv ⌊j⌋ : ℤ) : ℚ)))
            + g10.v * (i - (⌊i⌋ : ℚ)) * (1 - (j - ((clampRowIndex Fv ⌊j⌋ : ℤ) : ℚ)))
            + g01.v * (1 - (i - (⌊i⌋ : ℚ))) * (j - ((clampRowIndex Fv ⌊j⌋ : ℤ) : ℚ))
            + g11.v * (i - (⌊i⌋ : ℚ)) * (j - ((clampRowIndex Fv ⌊j⌋ : ℤ) : ℚ))⟩) := by
  refine ⟨rfl, rfl, rfl, ?_, ?_, ?_, ?_, ?_⟩
  · intro h
    show clampColumnIndex Fs
        (if isContinuous Fs = true ∧ (Fs.nCols : ℤ) ≤ ⌊i⌋ + 1 then 0 else ⌊i⌋ + 1)
        = clampColumnIndex Fs 0
    rw [if_pos h]
  · intro h
    show clampColumnIndex Fs
        (if isContinuous Fs = true ∧ (Fs.nCols : ℤ) ≤ ⌊i⌋ + 1 then 0 else ⌊i⌋ + 1)
        = clampColumnIndex Fs (⌊i⌋ + 1)
    rw [if_neg h]
  · intro h
    rw [interpolatedValueAtIndexes, h]
  · intro g00 g10 g01 g11 h
    have e1 : (getFourSurroundingIndexes Fs i j).1 = ⌊i⌋ := rfl
    have e2 : (getFourSurroundingIndexes Fs i j).2.2.1 = clampRowIndex Fs ⌊j⌋ := rfl
    rw [interpolatedValueAtIndexes, h]
    simp only [Option.some.injEq, e1, e2]
    unfold scalarDoInterpolation
    ring
  · intro g00 g10 g01 g11 h
    have e1 : (getFourSurroundingIndexes Fv i j).1 = ⌊i⌋ := rfl
    have e2 : (getFourSurroundingIndexes Fv i j).2.2.1 = clampRowIndex Fv ⌊j⌋ := rfl
    rw [interpolatedValueAtIndexes, h]
    simp only [Option.some.injEq, e1, e2]
    unfold vectorDoInterpolation
    refine Vector.mk.injEq .. ▸ ?_
    constructor <;> ring

/-- C4 witness: the all-valid clause applied at indexes (0.5, 0.5) of the
scenario field evaluates the blend to 5/2. -/
theorem c4_interpolationSpec_witness :
    interpolatedValueAtIndexes scalarDoInterpolation F1 (1/2) (1/2) = some (5/2) := by
  have h := (c4_interpolationSpec F1 FV (1/2) (1/2)).2.2.2.2.2.2.1 1 2 3 4 (by
    norm_num [getFourSurroundingIndexes, getFourSurroundingValues, clampColumnIndex,
      clampRowIndex, isContinuous, xurCorner, F1, ScalarField.make, p1, jsIndex, jsCell,
      arrayTo2d, List.range_succ])
  rw [h]
  norm_num [clampRowIndex_eq, F1, ScalarField.make, p1]

/-! Claim C5: extent under longitude wrapping. -/

/-- C5: when the upper-right longitude exceeds 180°, a continuous field's
extent collapses its longitude bounds to exactly [-180, 180], and a
non-continuous field's extent shifts both longitude corners by -360; in both
cases the latitude bounds are the raw corners. -/
theorem c5_extentWrap {α : Type} (F : Field α) (hw : longitudeNeedsToBeWrapped F = true) :
    (isContinuous F = true → extent F = (-180, F.yllCorner, 180, yurCorner F)) ∧
    (isContinuous F = false →
      extent F = (F.xllCorner - 360, F.yllCorner, xurCorner F - 360, yurCorner F)) := by
  constructor
  · intro hc
    simp [extent, getWrappedLongitudes, hw, hc]
  · intro hc
    simp [extent, getWrappedLongitudes, hw, hc]

/-- C5 witness: the non-continuous wrapped field `Fw` (200 one-degree columns
from 100°E, so xurCorner = 300) gets extent (-260, 0, -60, 1). -/
theorem c5_extentWrap_witness : extent Fw = (-260, 0, -60, 1) := by
  have h := (c5_extentWrap Fw (by norm_num [longitudeNeedsToBeWrapped, xurCorner, Fw])).2
    (by norm_num [isContinuous, xurCorner, Fw])
  rw [h]
  norm_num [Fw, xurCorner, yurCorner]

/-! Claims C6 and C7: the particle tick. -/

/-- C6 counterexample: with maxAge = 2, a particle of age 3 on the all-valid
constant field `FV` is respawned at the tick's start (to the cell center
(1/2, 3/2)) and is then still advanced in the same tick — it commits
xt = 3/4 and ends the tick with age 1, not 0: the advance is not skipped for
a respawned particle, and the age increment is not reserved to particles
whose advance succeeded. -/
theorem c6_counterexample :
    (moveParticle FV 2 (1/4) 0 0 ⟨0, 0, 0, 0, none, 3⟩).age = 1 ∧
    (1 : ℕ) ≠ 0 ∧
    (moveParticle FV 2 (1/4) 0 0 ⟨0, 0, 0, 0, none, 3⟩).xt = 3/4 ∧
    (3/4 : ℚ) ≠ 0 := by
  have h : moveParticle FV 2 (1/4) 0 0 ⟨0, 0, 0, 0, none, 3⟩ =
      ⟨1/2, 3/2, 3/4, 7/4, some ⟨1, 1⟩, 1⟩ := by
    norm_num [moveParticle, respawnIfOld, advanceParticle, randomPosition, longitudeAtX,
      latitudeAtY, valueAt, hasValueAt, notContains, contains, pointInExtent,
      getWrappedLongitudes, longitudeNeedsToBeWrapped, isContinuous, xurCorner, yurCorner,
      getDecimalIndexes, clampColumnIndex, clampRowIndex, valueAtIndexes, jsGridGet,
      jsIndex, jsCell, FV, VectorField.make, arraysTo2d, List.range_succ]
  rw [h]
  norm_num

/-- C6 amended: on every tick, a particle whose age exceeds maxAge is
respawned (age reset to 0, the freshly drawn random position installed) and
then proceeds through the same tick's advance from its new position; a
particle whose advance succeeds commits xt, yt and the sampled vector (whose
magnitude is the step output); and every particle's age — respawned,
successful or failed — is incremented by 1 at the end of the tick. -/
theorem c6_tickSpec (F : Field Vector) (maxAge : ℕ) (velocityScale : ℚ)
    (ri rj : ℤ) (par : Particle) :
    moveParticle F maxAge velocityScale ri rj par
      = advanceParticle F maxAge velocityScale (respawnIfOld F maxAge ri rj par) ∧
    (maxAge < par.age →
      respawnIfOld F maxAge ri rj par
        = { par with
            age := 0
            x := (randomPosition F ri rj).1
            y := (randomPosition F ri rj).2 }) ∧
    (¬ maxAge < par.age → respawnIfOld F maxAge ri rj par = par) ∧
    (∀ (q : Particle) (v : Vector), valueAt F q.x q.y = some v →
      hasValueAt F (q.x + v.u * velocityScale) (q.y + v.v * velocityScale) = true →
      advanceParticle F maxAge velocityScale q
        = { q with
            xt := q.x + v.u * velocityScale
            yt := q.y + v.v * velocityScale
            m := some v
            age := q.age + 1 }) := by
  refine ⟨rfl, ?_, ?_, ?_⟩
  · intro h
    rw [respawnIfOld, if_pos h]
  · intro h
    rw [respawnIfOld, if_neg h]
  · intro q v hval hhas
    simp only [advanceParticle, hval, hhas, if_true]

/-- C6 witness: the amended tick stages applied to a concrete over-age
particle on `FV`: the respawn clause (age 3 > maxAge 2) and the
successful-advance clause at the respawned position. -/
theorem c6_tickSpec_witness :
    respawnIfOld FV 2 0 0 ⟨0, 0, 0, 0, none, 3⟩ = ⟨1/2, 3/2, 0, 0, none, 0⟩ ∧
    advanceParticle FV 2 (1/4) ⟨1/2, 3/2, 0, 0, none, 0⟩
      = ⟨1/2, 3/2, 3/4, 7/4, some ⟨1, 1⟩, 1⟩ := by
  constructor
  · have h := (c6_tickSpec FV 2 (1/4) 0 0 ⟨0, 0, 0, 0, none, 3⟩).2.1 (by norm_num)
    rw [h]
    norm_num [randomPosition, longitudeAtX, latitudeAtY, longitudeNeedsToBeWrapped,
      xurCorner, yurCorner, FV, VectorField.make]
  · have h := (c6_tickSpec FV 2 (1/4) 0 0 ⟨0, 0, 0, 0, none, 3⟩).2.2.2
      ⟨1/2, 3/2, 0, 0, none, 0⟩ ⟨1, 1⟩
      (by norm_num [valueAt, notContains, contains, pointInExtent, getWrappedLongitudes,
        longitudeNeedsToBeWrapped, isContinuous, xurCorner, yurCorner, getDecimalIndexes,
        clampColumnIndex, clampRowIndex, valueAtIndexes, jsGridGet, jsIndex, jsCell,
        FV, VectorField.make, arraysTo2d, List.range_succ])
      (by norm_num [hasValueAt, valueAt, notContains, contains, pointInExtent,
        getWrappedLongitudes, longitudeNeedsToBeWrapped, isContinuous, xurCorner,
        yurCorner, getDecimalIndexes, clampColumnIndex, clampRowIndex, valueAtIndexes,
        jsGridGet, jsIndex, jsCell, FV, VectorField.make, arraysTo2d, List.range_succ])
    rw [h]
    norm_num

/-- C7: a particle whose current-position sample is invalid, or whose
Euler-integrated candidate next position has no valid sample, has its age
forced to maxAge inside the tick; with the tick's closing increment it ends
the tick at maxAge + 1 > maxAge, its position fields untouched, so the
following tick's respawn stage fires: it is respawned within one tick and
never stays stuck at an invalid position. -/
theorem c7_invalidExpiry (F : Field Vector) (maxAge : ℕ) (velocityScale : ℚ)
    (par : Particle)
    (h : valueAt F par.x par.y = none ∨
      ∃ v : Vector, valueAt F par.x par.y = some v ∧
        hasValueAt F (par.x + v.u * velocityScale) (par.y + v.v * velocityScale) = false) :
    (advanceParticle F maxAge velocityScale par).age = maxAge + 1 ∧
    maxAge < (advanceParticle F maxAge velocityScale par).age ∧
    (advanceParticle F maxAge velocityScale par).x = par.x ∧
    (advanceParticle F maxAge velocityScale par).y = par.y ∧
    (advanceParticle F maxAge velocityScale par).xt = par.xt ∧
    (advanceParticle F maxAge velocityScale par).yt = par.yt ∧
    (∀ ri rj : ℤ,
      respawnIfOld F maxAge ri rj (advanceParticle F maxAge velocityScale par)
        = { advanceParticle F maxAge velocityScale par with
            age := 0
            x := (randomPosition F ri rj).1
            y := (randomPosition F ri rj).2 }) := by
  have hstep : advanceParticle F maxAge velocityScale par
      = { par with age := maxAge + 1 } := by
    rcases h with hnone | ⟨v, hval, hhas⟩
    · simp only [advanceParticle, hnone]
    · simp only [advanceParticle, hval, hhas, Bool.false_eq_true, if_false]
  rw [hstep]
  refine ⟨rfl, Nat.lt_succ_self maxAge, rfl, rfl, rfl, rfl, ?_⟩
  intro ri rj
  rw [respawnIfOld, if_pos (Nat.lt_succ_self maxAge)]

/-- C7 witness: a particle sitting at (-10, -10), outside `FV`'s extent,
ends its tick at age maxAge + 1 = 3 with its position unchanged, and the next
tick's respawn stage resets it. -/
theorem c7_invalidExpiry_witness :
    (advanceParticle FV 2 1 ⟨-10, -10, 5, 5, none, 0⟩).age = 2 + 1 ∧
    (advanceParticle FV 2 1 ⟨-10, -10, 5, 5, none, 0⟩).x = -10 := by
  have h := c7_invalidExpiry FV 2 1 ⟨-10, -10, 5, 5, none, 0⟩
    (Or.inl (by norm_num [valueAt, notContains, contains, pointInExtent,
      getWrappedLongitudes, longitudeNeedsToBeWrapped, isContinuous, xurCorner,
      yurCorner, FV, VectorField.make]))
  exact ⟨h.1, h.2.2.1⟩

/-! Claim C8: hasValueAt agrees with valueAt. -/

lemma valueAt_filter_true {α : Type} {F : Field α} {lon lat : ℚ} {a : α}
    {f : Option α → Bool} (hf : F.inFilter = some f) (hv : valueAt F lon lat = some a) :
    f (some a) = true := by
  rw [valueAt] at hv
  split at hv
  · exact absurd hv (by simp)
  · rw [hf] at hv
    simp only at hv
    split at hv
    · exact hv ▸ (by assumption)
    · exact absurd hv (by simp)

/-- C8: for every field, filter and coordinate, `hasValueAt` is true exactly
when `valueAt` returns a non-invalid value — because `valueAt` already
filters its result, the re-application of the filter inside `hasValueAt`
never disagrees. (This holds for every coordinate, not only those inside the
extent.) -/
theorem c8_hasValueAt_iff {α : Type} (F : Field α) (lon lat : ℚ) :
    hasValueAt F lon lat = true ↔ valueAt F lon lat ≠ none := by
  rw [hasValueAt]
  cases hval : valueAt F lon lat with
  | none => simp [hval]
  | some a =>
    cases hfil : F.inFilter with
    | none => simp [hval, hfil]
    | some f => simp [hval, hfil, valueAt_filter_true hfil hval]

/-! Claim C9: construction with mismatched dimensions. -/

/-- C9 counterexample: the descriptor `p3` declares 2×2 = 4 cells but carries
only 3 values; the ScalarField constructor does not fail — it builds a field
whose grid pads the missing cell with the invalid marker. -/
theorem c9_counterexample :
    (ScalarField.make p3).grid = [[some 1, some 2], [some 3, none]] ∧
    p3.nRows * p3.nCols ≠ p3.zs.length :=
  ⟨rfl, by decide⟩

/-- C9 amended: the ScalarField constructor performs no dimension validation
and never raises: it always builds an nRows × nCols grid in which cell
(j, i) holds flat-array entry j·nCols + i, and every cell whose flat position
falls beyond the array's end is stored as invalid (`null`); surplus array
entries are ignored. -/
theorem c9_gridPadding (p : SFParams) :
    (ScalarField.make p).grid.length = p.nRows ∧
    (∀ row ∈ (ScalarField.make p).grid, row.length = p.nCols) ∧
    (∀ j i : ℕ, j < p.nRows → i < p.nCols →
      jsGridGet (ScalarField.make p).grid (j : ℤ) (i : ℤ)
        = (p.zs.get? (j * p.nCols + i)).join) ∧
    (∀ j i : ℕ, j < p.nRows → i < p.nCols → p.zs.length ≤ j * p.nCols + i →
      jsGridGet (ScalarField.make p).grid (j : ℤ) (i : ℤ) = none) := by
  have hgrid : (ScalarField.make p).grid = arrayTo2d p.zs p.nRows p.nCols := rfl
  have hcell : ∀ j i : ℕ, j < p.nRows → i < p.nCols →
      jsGridGet (ScalarField.make p).grid (j : ℤ) (i : ℤ)
        = (p.zs.get? (j * p.nCols + i)).join := by
    intro j i hj hi
    rw [hgrid]
    have hrow : jsIndex (arrayTo2d p.zs p.nRows p.nCols) (j : ℤ)
        = some ((List.range p.nCols).map
            (fun i2 => (p.zs.get? (j * p.nCols + i2)).join)) := by
      rw [jsIndex, if_neg (by omega)]
      rw [Int.toNat_natCast]
      rw [arrayTo2d, List.get?_map, List.get?_range hj]
      rfl
    simp only [jsGridGet, hrow]
    rw [jsCell, jsIndex, if_neg (by omega), Int.toNat_natCast]
    rw [List.get?_map, List.get?_range hi]
    rfl
  refine ⟨?_, ?_, hcell, ?_⟩
  · rw [hgrid, arrayTo2d]
    simp
  · intro row hrow
    rw [hgrid, arrayTo2d] at hrow
    simp only [List.mem_map, List.mem_range] at hrow
    obtain ⟨j, _, hrow⟩ := hrow
    rw [← hrow]
    simp
  · intro j i hj hi hlen
    rw [hcell j i hj hi, List.get?_eq_none.2 hlen]
    rfl

/-- C9 witness: the amended description instantiated on the mismatched
descriptor `p3`: the grid is 2×2 and its out-of-data cell (1, 1) is
invalid. -/
theorem c9_gridPadding_witness :
    (ScalarField.make p3).grid.length = p3.nRows ∧
    jsGridGet (ScalarField.make p3).grid 1 1 = none :=
  ⟨(c9_gridPadding p3).1,
   (c9_gridPadding p3).2.2.2 1 1 (by decide) (by decide) (by decide)⟩

/-! Claim C10: the filter never affects interpolation. -/

/-- C10: `interpolatedValueAt` after `setFilter(f)` equals
`interpolatedValueAt` with no filter set — the filter (and the range it
recomputes) influence `valueAt`, `hasValueAt` and `range`, none of which the
interpolation pipeline reads; this also holds for any field of any value
type under any direct inFilter/range replacement. -/
theorem c10_filterIndependence :
    (∀ (S : ScalarField) (f : Option ℚ → Bool) (lon lat : ℚ),
      interpolatedValueAt scalarDoInterpolation (ScalarField.setFilter S f).toField lon lat
        = interpolatedValueAt scalarDoInterpolation
            { S.toField with inFilter := none } lon lat) ∧
    (∀ (α : Type) (doInterp : ℚ → ℚ → α → α → α → α → α) (F : Field α)
        (fl : Option (Option α → Bool)) (r : Option ℚ × Option ℚ) (lon lat : ℚ),
      interpolatedValueAt doInterp { F with inFilter := fl, range := r } lon lat
        = interpolatedValueAt doInterp F lon lat) :=
  ⟨fun _ _ _ _ => rfl, fun _ _ _ _ _ _ _ => rfl⟩

end CanvasField
